import Mathlib

/-!
Verification of the Cart / Order / Payment core of the foot-ware storefront.

The definitions below are a shallow embedding of the Python source:
`ecommerce/models.py` (Shoe, ShoeVariant, Cart, CartItem, Coupon, Order,
Payment), `ecommerce/views.py` (add_to_cart, update_cart_item,
remove_cart_item, get_or_create_cart) and `ecommerce/admin.py`
(OrderAdmin bulk actions).  Decimal money amounts are modelled as exact
integers (the source uses fixed-point decimals, never floats); database
tables are lists of rows; autoincrement primary keys are explicit
counters; the current time is passed as an integer parameter.
-/

/-- Shoe row: only the field the cart core reads (`base_price`). -/
structure Shoe where
  id : Nat
  base_price : Int
  deriving DecidableEq, Repr

/-- ShoeVariant row (models.py 282-327): FK `shoe` is inlined as the row it
resolves to; `stock_quantity`, `price_adjustment`, `is_active` as in the
source. -/
structure ShoeVariant where
  id : Nat
  shoe : Shoe
  stock_quantity : Int
  price_adjustment : Int
  is_active : Bool
  deriving DecidableEq, Repr

/-- ShoeVariant.final_price (models.py 310-313):
`self.shoe.base_price + self.price_adjustment`. -/
def ShoeVariant.final_price (v : ShoeVariant) : Int :=
  v.shoe.base_price + v.price_adjustment

/-- Cart owner: exactly one of an authenticated user or an anonymous
session key (models.py 425-428: `user` nullable, `session_key` nullable;
views.py get_or_create_cart keys on one or the other). -/
inductive Owner where
  | user (uid : Nat)
  | session (key : Nat)
  deriving DecidableEq, Repr

/-- Cart row (models.py 425-430). -/
structure Cart where
  id : Nat
  owner : Owner
  deriving DecidableEq, Repr

/-- CartItem row (models.py 444-453): FKs kept as ids so that prices are
resolved against the live catalog at read time; no price field is stored,
exactly as in the source model. -/
structure CartItem where
  id : Nat
  cart_id : Nat
  shoe_id : Nat
  variant_id : Nat
  quantity : Int
  deriving DecidableEq, Repr

/-- Database state for the cart subsystem: the variant catalog, the cart
table and the cart-item table, plus autoincrement counters for fresh
primary keys. -/
structure DB where
  variants : List ShoeVariant
  carts : List Cart
  items : List CartItem
  next_cart_id : Nat
  next_item_id : Nat
  deriving DecidableEq, Repr

/-- FK resolution of a CartItem.variant: lookup by primary key. -/
def DB.getVariant (db : DB) (vid : Nat) : Option ShoeVariant :=
  db.variants.find? (fun v => v.id = vid)

/-- Lookup used by add_to_cart (views.py 180):
`get_object_or_404(ShoeVariant, id=variant_id, is_active=True)`. -/
def DB.getActiveVariant (db : DB) (vid : Nat) : Option ShoeVariant :=
  db.variants.find? (fun v => v.id = vid ∧ v.is_active = true)

/-- CartItem.unit_price (models.py 458-460): `self.variant.final_price`,
resolved against the current catalog (0 only on a dangling FK, which the
source database forbids). -/
def CartItem.unit_price (db : DB) (it : CartItem) : Int :=
  (db.getVariant it.variant_id).elim 0 ShoeVariant.final_price

/-- CartItem.total_price (models.py 462-464): `self.unit_price * self.quantity`. -/
def CartItem.total_price (db : DB) (it : CartItem) : Int :=
  it.unit_price db * it.quantity

/-- The rows of `cart.items.all()` for a given cart id. -/
def DB.cartItemsOf (db : DB) (cartId : Nat) : List CartItem :=
  db.items.filter (fun it => it.cart_id = cartId)

/-- Cart.total_items (models.py 435-437):
`self.items.aggregate(total=Sum(quantity))[total] or 0` — the sum of the
quantities, with the empty aggregate reading as 0. -/
def Cart.total_items (db : DB) (cartId : Nat) : Int :=
  ((db.cartItemsOf cartId).map (fun it => it.quantity)).sum

/-- Cart.total_price (models.py 439-441):
`sum(item.total_price for item in self.items.all())`. -/
def Cart.total_price (db : DB) (cartId : Nat) : Int :=
  ((db.cartItemsOf cartId).map (fun it => it.total_price db)).sum

/-- get_or_create_cart (views.py 613-631): find the cart keyed by the
current owner (user for authenticated requests, session key otherwise) or
create a fresh one. -/
def get_or_create_cart (db : DB) (owner : Owner) : Cart × DB :=
  match db.carts.find? (fun c => c.owner = owner) with
  | some c => (c, db)
  | none =>
    let c : Cart := { id := db.next_cart_id, owner := owner }
    (c, { db with carts := db.carts ++ [c], next_cart_id := db.next_cart_id + 1 })

/-- Result of the add_to_cart view (the AJAX branch, views.py 172-251). -/
inductive AddToCartResult where
  | notFound
  | insufficientStock (available : Int)
  | success (cart_count : Int) (cart_total : Int)
  deriving DecidableEq, Repr

/-- add_to_cart (views.py 172-251) is embedded by the next three
definitions, acting on the already-resolved cart id (the inline cart
resolution of lines 193-207 locates or creates the owner cart; the
line-level logic below is what it feeds).  Steps, in source order: resolve
the active variant (404 if absent); fail if `variant.stock_quantity <
quantity`; `CartItem.objects.get_or_create` keyed on (cart, variant) with
the requested quantity as default; for an existing row fail if
`cart_item.quantity + quantity > variant.stock_quantity`, otherwise save
the summed quantity; answer with `cart.total_items` and
`cart.total_price`.  This first definition is the create branch of the
get_or_create. -/
def add_to_cart_create (db : DB) (cartId : Nat) (variantId : Nat) (quantity : Int)
    (variant : ShoeVariant) : AddToCartResult × DB :=
  let newItem : CartItem :=
    { id := db.next_item_id, cart_id := cartId, shoe_id := variant.shoe.id,
      variant_id := variantId, quantity := quantity }
  let db' : DB :=
    { db with items := db.items ++ [newItem], next_item_id := db.next_item_id + 1 }
  (.success (Cart.total_items db' cartId) (Cart.total_price db' cartId), db')

/-- Branch of add_to_cart for an existing line (views.py 216-230): reject
when the cumulative quantity exceeds the live stock, otherwise save the
summed quantity on the found row. -/
def add_to_cart_increment (db : DB) (cartId : Nat) (quantity : Int)
    (variant : ShoeVariant) (item : CartItem) : AddToCartResult × DB :=
  let new_quantity := item.quantity + quantity
  if new_quantity > variant.stock_quantity then
    (.insufficientStock variant.stock_quantity, db)
  else
    let db' : DB :=
      { db with items := db.items.map (fun it =>
          if it.id = item.id then { it with quantity := new_quantity } else it) }
    (.success (Cart.total_items db' cartId) (Cart.total_price db' cartId), db')

/-- Dispatcher of add_to_cart: resolve the active variant, run the stock
check against the requested quantity, then get-or-create the line. -/
def add_to_cart (db : DB) (cartId : Nat) (variantId : Nat) (quantity : Int) :
    AddToCartResult × DB :=
  match db.getActiveVariant variantId with
  | none => (.notFound, db)
  | some variant =>
    if variant.stock_quantity < quantity then
      (.insufficientStock variant.stock_quantity, db)
    else
      match db.items.find? (fun it => it.cart_id = cartId ∧ it.variant_id = variantId) with
      | none => add_to_cart_create db cartId variantId quantity variant
      | some item => add_to_cart_increment db cartId quantity variant item

/-- Result of the update_cart_item view (views.py 511-557).  The generic
`error` case covers the `except Exception` branch, which also swallows the
404 raised when the item id is not a line of the requester cart. -/
inductive UpdateCartResult where
  | itemRemoved (cart_count : Int) (cart_total : Int)
  | insufficientStock (available : Int)
  | updated (cart_count : Int) (cart_total : Int) (item_total : Int) (subtotal : Int)
  | error
  deriving DecidableEq, Repr

/-- update_cart_item (views.py 511-557) is embedded by the next four
definitions: resolve the requester cart via get_or_create_cart;
`get_object_or_404(CartItem, id=item_id, cart=cart)` (404 lands in the
generic error branch, after the cart row, if freshly created, has already
been committed); quantity ≤ 0 deletes the line; quantity above the live
variant stock is rejected with no mutation; otherwise the quantity is
saved in place.  This first definition is the deletion branch
(views.py 523-531). -/
def update_cart_item_delete (db1 : DB) (cartId : Nat) (item : CartItem) :
    UpdateCartResult × DB :=
  let db2 : DB := { db1 with items := db1.items.filter (fun it => ¬ it.id = item.id) }
  (.itemRemoved (Cart.total_items db2 cartId) (Cart.total_price db2 cartId), db2)

/-- Branch of update_cart_item for a positive quantity within stock
(views.py 539-549): save the new quantity on the found row and answer
with the recomputed totals. -/
def update_cart_item_apply (db1 : DB) (cartId : Nat) (quantity : Int) (item : CartItem) :
    UpdateCartResult × DB :=
  let db2 : DB := { db1 with items := db1.items.map (fun it =>
      if it.id = item.id then { it with quantity := quantity } else it) }
  (.updated (Cart.total_items db2 cartId) (Cart.total_price db2 cartId)
    (CartItem.total_price db2 { item with quantity := quantity })
    (Cart.total_price db2 cartId), db2)

/-- Body of update_cart_item once the line of the requester cart is found:
quantity ≤ 0 deletes the line; a quantity above the live variant stock is
rejected with no mutation; otherwise the quantity is saved in place. -/
def update_cart_item_found (db1 : DB) (cartId : Nat) (quantity : Int) (item : CartItem) :
    UpdateCartResult × DB :=
  if quantity ≤ 0 then
    update_cart_item_delete db1 cartId item
  else
    match db1.getVariant item.variant_id with
    | none => (.error, db1)
    | some variant =>
      if quantity > variant.stock_quantity then
        (.insufficientStock variant.stock_quantity, db1)
      else
        update_cart_item_apply db1 cartId quantity item

/-- Dispatcher of update_cart_item: resolve the requester cart via
get_or_create_cart, find the line by (id, cart) — a miss is the swallowed
404 — and hand it to `update_cart_item_found`. -/
def update_cart_item (db : DB) (owner : Owner) (itemId : Nat) (quantity : Int) :
    UpdateCartResult × DB :=
  let cart := (get_or_create_cart db owner).1
  let db1 := (get_or_create_cart db owner).2
  match db1.items.find? (fun it => it.id = itemId ∧ it.cart_id = cart.id) with
  | none => (.error, db1)
  | some item => update_cart_item_found db1 cart.id quantity item

/-- Result of the remove_cart_item view (views.py 560-586). -/
inductive RemoveCartResult where
  | removed (cart_count : Int) (cart_total : Int) (subtotal : Int)
  | error
  deriving DecidableEq, Repr

/-- remove_cart_item (views.py 560-586) is embedded by the next two
definitions; this first one is the deletion applied to the found line. -/
def remove_cart_item_found (db1 : DB) (cartId : Nat) (item : CartItem) :
    RemoveCartResult × DB :=
  let db2 : DB := { db1 with items := db1.items.filter (fun it => ¬ it.id = item.id) }
  (.removed (Cart.total_items db2 cartId) (Cart.total_price db2 cartId)
    (Cart.total_price db2 cartId), db2)

/-- Dispatcher of remove_cart_item: resolve the requester cart, find the
line by (id, cart) — a miss is the swallowed 404 — and delete it. -/
def remove_cart_item (db : DB) (owner : Owner) (itemId : Nat) :
    RemoveCartResult × DB :=
  let cart := (get_or_create_cart db owner).1
  let db1 := (get_or_create_cart db owner).2
  match db1.items.find? (fun it => it.id = itemId ∧ it.cart_id = cart.id) with
  | none => (.error, db1)
  | some item => remove_cart_item_found db1 cart.id item

/-- One shopper-issued cart mutation, for reasoning about arbitrary
sequences of operations. -/
inductive CartOp where
  | add (cartId variantId : Nat) (quantity : Int)
  | update (owner : Owner) (itemId : Nat) (quantity : Int)
  | remove (owner : Owner) (itemId : Nat)
  deriving DecidableEq, Repr

/-- State reached after one cart operation. -/
def applyOp (db : DB) (op : CartOp) : DB :=
  match op with
  | .add cartId variantId q => (add_to_cart db cartId variantId q).2
  | .update owner itemId q => (update_cart_item db owner itemId q).2
  | .remove owner itemId => (remove_cart_item db owner itemId).2

/-- State reached after a sequence of cart operations. -/
def applyOps (db : DB) (ops : List CartOp) : DB :=
  ops.foldl applyOp db

/-- The at-most-one-line-per-(cart, variant) invariant (the
`unique_together = [cart, variant]` constraint of models.py 452-453). -/
def KeyUnique (items : List CartItem) : Prop :=
  items.Pairwise (fun a b => ¬ (a.cart_id = b.cart_id ∧ a.variant_id = b.variant_id))

/-- Coupon row (models.py 467-485): the fields read by is_valid, with
timestamps as integers. -/
structure Coupon where
  is_active : Bool
  usage_limit : Option Int
  used_count : Int
  valid_from : Int
  valid_to : Int
  deriving DecidableEq, Repr

/-- Coupon.is_valid (models.py 490-494):
`self.is_active and self.valid_from <= now <= self.valid_to and
(self.usage_limit is None or self.used_count < self.usage_limit)`,
with `now = timezone.now()` passed explicitly. -/
def Coupon.is_valid (c : Coupon) (now : Int) : Bool :=
  c.is_active && (decide (c.valid_from ≤ now) && decide (now ≤ c.valid_to)) &&
    (match c.usage_limit with
     | none => true
     | some lim => decide (c.used_count < lim))

/-- Order status enum (models.py 499-506). -/
inductive OrderStatus where
  | pending
  | processing
  | shipped
  | delivered
  | cancelled
  | refunded
  deriving DecidableEq, Repr

/-- Order row (models.py 497-546): the mutable fields the status and
payment flows touch, with timestamps as integers.  The frozen money and
address fields are irrelevant to the claims below and omitted. -/
structure Order where
  id : Nat
  order_number : String
  status : OrderStatus
  payment_status : String
  shipped_at : Option Int
  delivered_at : Option Int
  deriving DecidableEq, Repr

/-- OrderAdmin.mark_as_processing (admin.py 316-318):
`queryset.update(status=processing)` applied to one selected order. -/
def mark_as_processing (o : Order) : Order :=
  { o with status := .processing }

/-- OrderAdmin.mark_as_shipped (admin.py 320-323):
`queryset.update(status=shipped, shipped_at=timezone.now())` applied to one
selected order. -/
def mark_as_shipped (now : Int) (o : Order) : Order :=
  { o with status := .shipped, shipped_at := some now }

/-- OrderAdmin.mark_as_delivered (admin.py 325-328):
`queryset.update(status=delivered, delivered_at=timezone.now())` applied to
one selected order. -/
def mark_as_delivered (now : Int) (o : Order) : Order :=
  { o with status := .delivered, delivered_at := some now }

/-- Order.save (models.py 542-546): when `order_number` is empty, assign
the freshly generated random 9-character code — the output of
`random.choices` is modelled as the `generated` argument — then insert;
the `unique=True` constraint on order_number (models.py 508) makes the
insert fail (`none`) when the number is already taken by another row,
whose numbers are the `existing` argument.  There is no retry loop in the
source. -/
def order_save (existing : List String) (generated : String) (o : Order) : Option Order :=
  let o' := if o.order_number = "" then { o with order_number := generated } else o
  if o'.order_number ∈ existing then none else some o'

/-- Modelled from the spec: order-number generation with collision-retry
("generates a unique order number (collision-retry on the rare clash)",
spec 4.3 step b).  This retrying generator is absent from the source; it
consumes candidates from the random stream until one avoids the existing
numbers.  It is stated only to be compared with `order_save`. -/
def order_save_retry (existing : List String) (generated : List String) (o : Order) :
    Option Order :=
  if o.order_number = "" then
    match generated.find? (fun n => ¬ n ∈ existing) with
    | some n => some { o with order_number := n }
    | none => none
  else if o.order_number ∈ existing then none else some o

/-- Payment status enum (models.py 564-568). -/
inductive PaymentStatus where
  | PENDING
  | SUCCESS
  | FAILED
  deriving DecidableEq, Repr

/-- Payment row (models.py 562-588): unique checkout_request_id, linked
order, nullable receipt, status, and the raw callback payload kept for
audit. -/
structure Payment where
  checkout_request_id : String
  order_id : Nat
  mpesa_receipt : Option String
  status : PaymentStatus
  raw_response : Option String
  deriving DecidableEq, Repr

/-- Outcome carried by an external gateway callback (spec 4.4). -/
inductive CallbackOutcome where
  | SUCCESS
  | FAILED
  deriving DecidableEq, Repr

/-- Terminal payment status matching a callback outcome. -/
def CallbackOutcome.toStatus : CallbackOutcome → PaymentStatus
  | .SUCCESS => .SUCCESS
  | .FAILED => .FAILED

/-- State touched by payment reconciliation: the payment and order tables
plus the audit log that records conflicting callbacks. -/
structure PayState where
  payments : List Payment
  orders : List Order
  audit_log : List String
  deriving DecidableEq, Repr

/-- Result of applying one gateway callback (spec 4.4 / 7). -/
inductive ApplyCallbackResult where
  | ok
  | unknownCheckoutRequest
  | conflictingCallback
  deriving DecidableEq, Repr

/-- Modelled from the spec: the asynchronous payment-callback handler
`applyCallback(checkoutRequestId, outcome, receiptId, rawPayload)` of
spec 4.4 is not present under src/ — only the `Payment` model declaration
(models.py 562-588) is.  Behaviour follows the words of the spec: unknown
checkout-request ids are rejected with no mutation; a payment already in a
terminal state treats a matching outcome as a no-op success and a
conflicting outcome as `ConflictingCallback`, recorded to the audit log
and never overwriting the stored outcome; the first transition to SUCCESS
stores the receipt and payload, marks the order paid and advances a
pending order to processing; the first transition to FAILED stores the
payload and marks the order failed, leaving fulfilment status alone.
This definition is the first-transition (PENDING) branch; the dispatcher
below wires it to the lookup and the terminal-state guard. -/
def applyCallbackPending (s : PayState) (crid : String) (outcome : CallbackOutcome)
    (receipt : Option String) (payload : String) (p : Payment) :
    ApplyCallbackResult × PayState :=
  match outcome with
  | .SUCCESS =>
    let p' := { p with status := .SUCCESS, mpesa_receipt := receipt,
                       raw_response := some payload }
    (.ok, { s with
      payments := s.payments.map (fun q =>
        if q.checkout_request_id = crid then p' else q),
      orders := s.orders.map (fun o =>
        if o.id = p.order_id then
          { o with payment_status := "paid",
                   status := if o.status = .pending then .processing else o.status }
        else o) })
  | .FAILED =>
    let p' := { p with status := .FAILED, raw_response := some payload }
    (.ok, { s with
      payments := s.payments.map (fun q =>
        if q.checkout_request_id = crid then p' else q),
      orders := s.orders.map (fun o =>
        if o.id = p.order_id then { o with payment_status := "failed" } else o) })

/-- Modelled from the spec: dispatcher part of the applyCallback handler
described above — look the payment up by checkout request id, reject
unknown ids, guard terminal states (matching outcome is a no-op success,
conflicting outcome is rejected and audit-logged), and hand PENDING
payments to `applyCallbackPending`. -/
def applyCallback (s : PayState) (crid : String) (outcome : CallbackOutcome)
    (receipt : Option String) (payload : String) : ApplyCallbackResult × PayState :=
  match s.payments.find? (fun p => p.checkout_request_id = crid) with
  | none => (.unknownCheckoutRequest, s)
  | some p =>
    if p.status = .PENDING then
      applyCallbackPending s crid outcome receipt payload p
    else
      if p.status = outcome.toStatus then
        (.ok, s)
      else
        (.conflictingCallback, { s with audit_log := s.audit_log ++ [payload] })

lemma get_or_create_cart_items (db : DB) (owner : Owner) :
    (get_or_create_cart db owner).2.items = db.items := by
  unfold get_or_create_cart
  cases db.carts.find? (fun c => c.owner = owner) <;> rfl

lemma get_or_create_cart_variants (db : DB) (owner : Owner) :
    (get_or_create_cart db owner).2.variants = db.variants := by
  unfold get_or_create_cart
  cases db.carts.find? (fun c => c.owner = owner) <;> rfl

lemma get_or_create_cart_carts_mem (db : DB) (owner : Owner) :
    ∀ c ∈ db.carts, c ∈ (get_or_create_cart db owner).2.carts := by
  unfold get_or_create_cart
  cases db.carts.find? (fun c => c.owner = owner) with
  | none => intro c hc; exact List.mem_append_left _ hc
  | some c0 => intro c hc; exact hc

/-- C7: Coupon.is_valid returns true exactly when the coupon is active,
the evaluation time lies within [valid_from, valid_to], and either no
usage limit is set or used_count is strictly below the usage limit. -/
theorem C7_coupon_is_valid_iff (c : Coupon) (now : Int) :
    c.is_valid now = true ↔
      (c.is_active = true ∧ (c.valid_from ≤ now ∧ now ≤ c.valid_to) ∧
        (c.usage_limit = none ∨ ∃ lim, c.usage_limit = some lim ∧ c.used_count < lim)) := by
  unfold Coupon.is_valid
  cases h : c.usage_limit with
  | none => simp [h]
  | some lim =>
    simp [h]
    tauto

/-- C4 counterexample: applying the admin bulk mark-as-shipped action to a
cancelled order succeeds and moves it out of the terminal state instead of
failing with InvalidTransition — no transition validation exists in the
code. -/
theorem C4_counterexample_cancelled_to_shipped :
    (mark_as_shipped 7
      { id := 1, order_number := "AAAAAAAAA", status := .cancelled,
        payment_status := "pending", shipped_at := none, delivered_at := none }).status
      = .shipped := rfl

/-- C4 amended: the admin bulk status actions set every selected order
status unconditionally — there is no state-machine validation and no
InvalidTransition failure, so transitions out of cancelled or refunded
succeed like any other; marking shipped stamps shipped_at with the current
time and marking delivered stamps delivered_at. -/
theorem C4_amended_bulk_actions_unconditional (o : Order) (now : Int) :
    (mark_as_processing o).status = .processing
  ∧ (mark_as_shipped now o).status = .shipped
  ∧ (mark_as_shipped now o).shipped_at = some now
  ∧ (mark_as_delivered now o).status = .delivered
  ∧ (mark_as_delivered now o).delivered_at = some now :=
  ⟨rfl, rfl, rfl, rfl, rfl⟩

/-- C6 counterexample: when the freshly generated order number collides
with an existing one, Order.save fails on the uniqueness constraint
(returns none) instead of retrying, while the retrying generator the claim
describes would have produced the next candidate. -/
theorem C6_counterexample_save_fails_on_collision :
    order_save ["AAAAAAAAA"] "AAAAAAAAA"
      { id := 1, order_number := "", status := .pending, payment_status := "pending",
        shipped_at := none, delivered_at := none } = none
  ∧ order_save_retry ["AAAAAAAAA"] ["AAAAAAAAA", "BBBBBBBBB"]
      { id := 1, order_number := "", status := .pending, payment_status := "pending",
        shipped_at := none, delivered_at := none }
      = some { id := 1, order_number := "BBBBBBBBB", status := .pending,
               payment_status := "pending", shipped_at := none, delivered_at := none } := by
  constructor <;> rfl

/-- C6 amended: an order number is generated only when the field is empty
and is never regenerated once assigned; a successful save never stores a
number colliding with an existing one — but a collision of the freshly
generated number makes the save fail (uniqueness violation) rather than
retry. -/
theorem C6_amended_order_number_unique_no_retry (existing : List String)
    (generated : String) (o : Order) :
    (o.order_number = "" → generated ∈ existing →
        order_save existing generated o = none)
  ∧ (∀ o', order_save existing generated o = some o' →
        o'.order_number ∉ existing
      ∧ (o.order_number ≠ "" → o'.order_number = o.order_number)) := by
  constructor
  · intro hempty hmem
    unfold order_save
    simp [hempty, hmem]
  · intro o' h
    unfold order_save at h
    by_cases hempty : o.order_number = ""
    · simp only [hempty, if_pos rfl] at h
      by_cases hmem : generated ∈ existing
      · simp [hmem] at h
      · simp [hmem] at h
        refine ⟨?_, fun hne => absurd hempty hne⟩
        rw [← h]
        simpa using hmem
    · simp only [if_neg hempty] at h
      by_cases hmem : o.order_number ∈ existing
      · simp [hmem] at h
      · simp [hmem] at h
        exact ⟨by rw [← h]; simpa using hmem, fun _ => by rw [← h]⟩

/-- C6 amended witness at a concrete input. -/
theorem C6_amended_witness :
    order_save ["AAAAAAAAA"] "CCCCCCCCC"
      { id := 2, order_number := "", status := .pending, payment_status := "pending",
        shipped_at := none, delivered_at := none }
      = some { id := 2, order_number := "CCCCCCCCC", status := .pending,
               payment_status := "pending", shipped_at := none, delivered_at := none }
  ∧ "CCCCCCCCC" ∉ ["AAAAAAAAA"] :=
  ⟨rfl,
   ((C6_amended_order_number_unique_no_retry ["AAAAAAAAA"] "CCCCCCCCC"
      { id := 2, order_number := "", status := .pending, payment_status := "pending",
        shipped_at := none, delivered_at := none }).2
      { id := 2, order_number := "CCCCCCCCC", status := .pending,
        payment_status := "pending", shipped_at := none, delivered_at := none } rfl).1⟩

/-- C9: the declared lower bound on CartItem.quantity
(MinValueValidator(1), models.py 449) is not enforced by add_to_cart: a
caller-supplied quantity of 0 passes the stock check (stock < 0 is false
for non-negative stock) and a cart line with quantity 0 is created and
reported as a success. -/
theorem C9_add_to_cart_stores_quantity_zero :
    (let db0 : DB :=
      { variants := [{ id := 1, shoe := { id := 1, base_price := 1000 },
                       stock_quantity := 5, price_adjustment := 0, is_active := true }],
        carts := [{ id := 1, owner := .user 1 }],
        items := [], next_cart_id := 2, next_item_id := 1 }
     add_to_cart db0 1 1 0
       = (.success 0 0,
          { db0 with
              items := [{ id := 1, cart_id := 1, shoe_id := 1, variant_id := 1,
                          quantity := 0 }],
              next_item_id := 2 })) := by
  decide

/-- Reduction of applyCallback when the payment lookup succeeds. -/
lemma applyCallback_of_find_some (s : PayState) (crid : String)
    (outcome : CallbackOutcome) (receipt : Option String) (payload : String)
    (p : Payment)
    (hfind : s.payments.find? (fun q => q.checkout_request_id = crid) = some p) :
    applyCallback s crid outcome receipt payload =
      if p.status = .PENDING then
        applyCallbackPending s crid outcome receipt payload p
      else if p.status = outcome.toStatus then (.ok, s)
      else (.conflictingCallback, { s with audit_log := s.audit_log ++ [payload] }) := by
  unfold applyCallback
  rw [hfind]

/-- C5: once a payment is in a terminal state (SUCCESS or FAILED), a
further callback for the same checkout request never changes it: a
matching outcome is a no-op success returning the state unchanged, a
conflicting outcome is rejected with ConflictingCallback leaving the
payment and order tables untouched, and applying the same callback twice
yields the same payment and order tables as applying it once. -/
theorem C5_applyCallback_terminal_guard (s : PayState) (crid : String)
    (outcome : CallbackOutcome) (receipt : Option String) (payload : String)
    (p : Payment)
    (hfind : s.payments.find? (fun q => q.checkout_request_id = crid) = some p)
    (hterm : p.status = .SUCCESS ∨ p.status = .FAILED) :
    (p.status = outcome.toStatus →
        applyCallback s crid outcome receipt payload = (.ok, s))
  ∧ (p.status ≠ outcome.toStatus →
        (applyCallback s crid outcome receipt payload).1 = .conflictingCallback
      ∧ (applyCallback s crid outcome receipt payload).2.payments = s.payments
      ∧ (applyCallback s crid outcome receipt payload).2.orders = s.orders)
  ∧ ((applyCallback (applyCallback s crid outcome receipt payload).2 crid outcome
        receipt payload).2.payments
        = (applyCallback s crid outcome receipt payload).2.payments
    ∧ (applyCallback (applyCallback s crid outcome receipt payload).2 crid outcome
        receipt payload).2.orders
        = (applyCallback s crid outcome receipt payload).2.orders) := by
  have hpend : ¬ p.status = .PENDING := by
    rcases hterm with h | h <;> simp [h]
  have hred := applyCallback_of_find_some s crid outcome receipt payload p hfind
  rw [if_neg hpend] at hred
  refine ⟨?_, ?_, ?_⟩
  · intro hmatch
    rw [hred, if_pos hmatch]
  · intro hne
    rw [hred, if_neg hne]
    exact ⟨rfl, rfl, rfl⟩
  · by_cases hmatch : p.status = outcome.toStatus
    · have h1 : applyCallback s crid outcome receipt payload = (.ok, s) := by
        rw [hred, if_pos hmatch]
      simp [h1]
    · have h1 : applyCallback s crid outcome receipt payload
          = (.conflictingCallback, { s with audit_log := s.audit_log ++ [payload] }) := by
        rw [hred, if_neg hmatch]
      have hred2 := applyCallback_of_find_some
        { s with audit_log := s.audit_log ++ [payload] } crid outcome receipt payload p hfind
      rw [if_neg hpend] at hred2
      have h2 : applyCallback { s with audit_log := s.audit_log ++ [payload] } crid outcome
            receipt payload
          = (.conflictingCallback,
             { s with audit_log := (s.audit_log ++ [payload]) ++ [payload] }) := by
        rw [hred2, if_neg hmatch]
      simp [h1, h2]

/-- C5 witness: a payment already SUCCESS rejects a FAILED replay with
ConflictingCallback and its tables are unchanged. -/
theorem C5_applyCallback_terminal_guard_witness :
    ([({ checkout_request_id := "req1", order_id := 1, mpesa_receipt := some "R1",
         status := .SUCCESS, raw_response := none } : Payment)].find?
        (fun q => q.checkout_request_id = "req1")
      = some { checkout_request_id := "req1", order_id := 1, mpesa_receipt := some "R1",
               status := .SUCCESS, raw_response := none })
  ∧ (applyCallback
        { payments := [{ checkout_request_id := "req1", order_id := 1,
                         mpesa_receipt := some "R1", status := .SUCCESS,
                         raw_response := none }],
          orders := [], audit_log := [] } "req1" .FAILED none "dup").1
      = .conflictingCallback := by
  refine ⟨rfl, ?_⟩
  exact ((C5_applyCallback_terminal_guard
    { payments := [{ checkout_request_id := "req1", order_id := 1,
                     mpesa_receipt := some "R1", status := .SUCCESS,
                     raw_response := none }],
      orders := [], audit_log := [] } "req1" .FAILED none "dup"
    { checkout_request_id := "req1", order_id := 1, mpesa_receipt := some "R1",
      status := .SUCCESS, raw_response := none }
    rfl (Or.inl rfl)).2.1 (by decide)).1

lemma add_to_cart_of_active (db : DB) (cartId variantId : Nat) (qty : Int)
    (v : ShoeVariant) (hv : db.getActiveVariant variantId = some v) :
    add_to_cart db cartId variantId qty =
      if v.stock_quantity < qty then (.insufficientStock v.stock_quantity, db)
      else
        match db.items.find? (fun it => it.cart_id = cartId ∧ it.variant_id = variantId) with
        | none => add_to_cart_create db cartId variantId qty v
        | some item => add_to_cart_increment db cartId qty v item := by
  unfold add_to_cart
  rw [hv]

lemma add_to_cart_stock_fail (db : DB) (cartId variantId : Nat) (qty : Int)
    (v : ShoeVariant) (hv : db.getActiveVariant variantId = some v)
    (hq : v.stock_quantity < qty) :
    add_to_cart db cartId variantId qty = (.insufficientStock v.stock_quantity, db) := by
  rw [add_to_cart_of_active db cartId variantId qty v hv, if_pos hq]

lemma add_to_cart_fresh (db : DB) (cartId variantId : Nat) (qty : Int)
    (v : ShoeVariant) (hv : db.getActiveVariant variantId = some v)
    (hq : ¬ v.stock_quantity < qty)
    (hfind : db.items.find? (fun it => it.cart_id = cartId ∧ it.variant_id = variantId)
      = none) :
    add_to_cart db cartId variantId qty = add_to_cart_create db cartId variantId qty v := by
  rw [add_to_cart_of_active db cartId variantId qty v hv, if_neg hq, hfind]

lemma add_to_cart_existing (db : DB) (cartId variantId : Nat) (qty : Int)
    (v : ShoeVariant) (item : CartItem) (hv : db.getActiveVariant variantId = some v)
    (hq : ¬ v.stock_quantity < qty)
    (hfind : db.items.find? (fun it => it.cart_id = cartId ∧ it.variant_id = variantId)
      = some item) :
    add_to_cart db cartId variantId qty = add_to_cart_increment db cartId qty v item := by
  rw [add_to_cart_of_active db cartId variantId qty v hv, if_neg hq, hfind]

lemma update_cart_item_find_none (db : DB) (owner : Owner) (itemId : Nat) (qty : Int)
    (hfind : (get_or_create_cart db owner).2.items.find?
        (fun it => it.id = itemId ∧ it.cart_id = (get_or_create_cart db owner).1.id)
      = none) :
    update_cart_item db owner itemId qty = (.error, (get_or_create_cart db owner).2) := by
  unfold update_cart_item
  dsimp only
  rw [hfind]

lemma update_cart_item_find_some (db : DB) (owner : Owner) (itemId : Nat) (qty : Int)
    (item : CartItem)
    (hfind : (get_or_create_cart db owner).2.items.find?
        (fun it => it.id = itemId ∧ it.cart_id = (get_or_create_cart db owner).1.id)
      = some item) :
    update_cart_item db owner itemId qty
      = update_cart_item_found (get_or_create_cart db owner).2
          (get_or_create_cart db owner).1.id qty item := by
  unfold update_cart_item
  dsimp only
  rw [hfind]

lemma update_cart_item_found_variant_some (db1 : DB) (cartId : Nat) (qty : Int)
    (item : CartItem) (v : ShoeVariant) (hq : ¬ qty ≤ 0)
    (hv : db1.getVariant item.variant_id = some v) :
    update_cart_item_found db1 cartId qty item =
      if qty > v.stock_quantity then (.insufficientStock v.stock_quantity, db1)
      else update_cart_item_apply db1 cartId qty item := by
  unfold update_cart_item_found
  rw [if_neg hq, hv]

lemma remove_cart_item_find_none (db : DB) (owner : Owner) (itemId : Nat)
    (hfind : (get_or_create_cart db owner).2.items.find?
        (fun it => it.id = itemId ∧ it.cart_id = (get_or_create_cart db owner).1.id)
      = none) :
    remove_cart_item db owner itemId = (.error, (get_or_create_cart db owner).2) := by
  unfold remove_cart_item
  dsimp only
  rw [hfind]

lemma remove_cart_item_find_some (db : DB) (owner : Owner) (itemId : Nat)
    (item : CartItem)
    (hfind : (get_or_create_cart db owner).2.items.find?
        (fun it => it.id = itemId ∧ it.cart_id = (get_or_create_cart db owner).1.id)
      = some item) :
    remove_cart_item db owner itemId
      = remove_cart_item_found (get_or_create_cart db owner).2
          (get_or_create_cart db owner).1.id item := by
  unfold remove_cart_item
  dsimp only
  rw [hfind]

/-- C1: with the requested variant active in the catalog, add_to_cart
(i) reports exactly the live available quantity and performs no mutation
whenever it answers insufficient-stock, (ii) answers insufficient-stock
whenever stock is below the requested quantity for a fresh line or below
the cumulative quantity (existing line quantity plus requested) for an
existing line, and (iii) on success reports the updated cart totals: the
item count and total price of the cart after the mutation. -/
theorem C1_add_to_cart_stock_check (db : DB) (cartId variantId : Nat) (qty : Int)
    (v : ShoeVariant) (hv : db.getActiveVariant variantId = some v) :
    (∀ a, (add_to_cart db cartId variantId qty).1 = .insufficientStock a →
        a = v.stock_quantity ∧ (add_to_cart db cartId variantId qty).2 = db)
  ∧ ((match db.items.find? (fun it => it.cart_id = cartId ∧ it.variant_id = variantId) with
      | none => v.stock_quantity < qty
      | some item => v.stock_quantity < item.quantity + qty) →
      (add_to_cart db cartId variantId qty).1 = .insufficientStock v.stock_quantity)
  ∧ (∀ c t, (add_to_cart db cartId variantId qty).1 = .success c t →
      c = Cart.total_items (add_to_cart db cartId variantId qty).2 cartId
    ∧ t = Cart.total_price (add_to_cart db cartId variantId qty).2 cartId) := by
  by_cases hq : v.stock_quantity < qty
  · rw [add_to_cart_stock_fail db cartId variantId qty v hv hq]
    simp
  · cases hfind : db.items.find?
        (fun it => it.cart_id = cartId ∧ it.variant_id = variantId) with
    | none =>
      rw [add_to_cart_fresh db cartId variantId qty v hv hq hfind]
      unfold add_to_cart_create
      simp [hq]
    | some item =>
      rw [add_to_cart_existing db cartId variantId qty v item hv hq hfind]
      unfold add_to_cart_increment
      by_cases h2 : item.quantity + qty > v.stock_quantity
      · rw [if_pos h2]
        simp
      · rw [if_neg h2]
        refine ⟨?_, ?_, ?_⟩
        · intro a ha
          exact absurd ha (by simp)
        · intro hp
          exact absurd hp h2
        · intro c t hct
          simp only [Prod.fst] at hct
          have hc := (AddToCartResult.success.injEq _ _ _ _).mp hct.symm
          exact ⟨hc.1, hc.2⟩

def dbC1 : DB :=
  { variants := [{ id := 1, shoe := { id := 1, base_price := 500 },
                   stock_quantity := 2, price_adjustment := 0, is_active := true }],
    carts := [{ id := 1, owner := .user 1 }], items := [],
    next_cart_id := 2, next_item_id := 1 }

/-- C1 witness: requesting 5 of a variant with stock 2 answers
insufficient-stock reporting 2 and leaves the database unchanged. -/
theorem C1_add_to_cart_stock_check_witness :
    DB.getActiveVariant dbC1 1
      = some { id := 1, shoe := { id := 1, base_price := 500 },
               stock_quantity := 2, price_adjustment := 0, is_active := true }
  ∧ (add_to_cart dbC1 1 1 5).1 = .insufficientStock 2
  ∧ (add_to_cart dbC1 1 1 5).2 = dbC1 := by
  have h := C1_add_to_cart_stock_check dbC1 1 1 5
    { id := 1, shoe := { id := 1, base_price := 500 },
      stock_quantity := 2, price_adjustment := 0, is_active := true } rfl
  have hres := h.2.1 (by norm_num [dbC1])
  exact ⟨rfl, hres, (h.1 2 hres).2⟩

/-- C3: for every cart, the totals are a read-only aggregation over the
current lines: the item count is the sum of the line quantities, and the
total price is the sum over the lines of the live final price of the line
variant — base price plus price adjustment, resolved in the current
catalog at read time (a CartItem stores no price field, so any price
function agreeing with the current catalog computes the total). -/
theorem C3_cart_totals_live (db : DB) (cartId : Nat) (price : Nat → Int)
    (hfk : ∀ it ∈ db.cartItemsOf cartId, (db.getVariant it.variant_id).isSome = true)
    (hprice : ∀ it ∈ db.cartItemsOf cartId, ∀ v, db.getVariant it.variant_id = some v →
        price it.variant_id = v.shoe.base_price + v.price_adjustment) :
    Cart.total_items db cartId = ((db.cartItemsOf cartId).map (fun it => it.quantity)).sum
  ∧ Cart.total_price db cartId
      = ((db.cartItemsOf cartId).map (fun it => price it.variant_id * it.quantity)).sum := by
  refine ⟨rfl, ?_⟩
  unfold Cart.total_price
  congr 1
  apply List.map_congr_left
  intro it hit
  unfold CartItem.total_price CartItem.unit_price
  cases hv : db.getVariant it.variant_id with
  | none => exact absurd (hfk it hit) (by simp [hv])
  | some v =>
    rw [hprice it hit v hv]
    simp [ShoeVariant.final_price]

def dbC3 : DB :=
  { variants := [{ id := 1, shoe := { id := 10, base_price := 500 },
                   stock_quantity := 9, price_adjustment := 100, is_active := true },
                 { id := 2, shoe := { id := 11, base_price := 1000 },
                   stock_quantity := 4, price_adjustment := -50, is_active := true }],
    carts := [{ id := 1, owner := .user 1 }],
    items := [{ id := 1, cart_id := 1, shoe_id := 10, variant_id := 1, quantity := 2 },
              { id := 2, cart_id := 1, shoe_id := 11, variant_id := 2, quantity := 3 }],
    next_cart_id := 2, next_item_id := 3 }

/-- C3 witness: a two-line cart totals 5 items and 600*2 + 950*3 = 4050,
computed from the current base price plus adjustment of each variant. -/
theorem C3_cart_totals_live_witness :
    Cart.total_items dbC3 1 = 5 ∧ Cart.total_price dbC3 1 = 4050 := by
  have h := C3_cart_totals_live dbC3 1 (fun vid => if vid = 1 then 600 else 950)
    (by decide)
    (by
      intro it hit v hv
      simp only [dbC3, DB.cartItemsOf, List.filter] at hit
      norm_num at hit
      rcases hit with h1 | h2
      · subst h1
        simp [dbC3, DB.getVariant, List.find?] at hv
        subst hv
        norm_num
      · subst h2
        simp [dbC3, DB.getVariant, List.find?] at hv
        subst hv
        norm_num)
  refine ⟨?_, ?_⟩
  · rw [h.1]; decide
  · rw [h.2]; decide

/-- C8: on an existing line of the caller cart whose variant resolves, the
update operation removes the line and signals the removal when the new
quantity is ≤ 0; fails with insufficient-stock reporting the available
quantity and mutating nothing when the new quantity exceeds the live
stock; and otherwise saves the new quantity on that line in place. -/
theorem C8_update_cart_item_behaviour (db : DB) (owner : Owner) (itemId : Nat) (qty : Int)
    (item : CartItem) (v : ShoeVariant)
    (hitem : (get_or_create_cart db owner).2.items.find?
        (fun it => it.id = itemId ∧ it.cart_id = (get_or_create_cart db owner).1.id)
      = some item)
    (hv : (get_or_create_cart db owner).2.getVariant item.variant_id = some v) :
    (qty ≤ 0 →
        (∃ c t, (update_cart_item db owner itemId qty).1 = .itemRemoved c t)
      ∧ (update_cart_item db owner itemId qty).2.items
          = db.items.filter (fun it => ¬ it.id = item.id))
  ∧ (¬ qty ≤ 0 → qty > v.stock_quantity →
        (update_cart_item db owner itemId qty).1 = .insufficientStock v.stock_quantity
      ∧ (update_cart_item db owner itemId qty).2.items = db.items)
  ∧ (¬ qty ≤ 0 → ¬ qty > v.stock_quantity →
        (∃ c t i s, (update_cart_item db owner itemId qty).1 = .updated c t i s)
      ∧ (update_cart_item db owner itemId qty).2.items
          = db.items.map
              (fun it => if it.id = item.id then { it with quantity := qty } else it)) := by
  have hred := update_cart_item_find_some db owner itemId qty item hitem
  have hitems := get_or_create_cart_items db owner
  refine ⟨?_, ?_, ?_⟩
  · intro hle
    rw [hred]
    unfold update_cart_item_found
    rw [if_pos hle]
    unfold update_cart_item_delete
    refine ⟨⟨_, _, rfl⟩, ?_⟩
    dsimp only
    rw [hitems]
  · intro hle hgt
    rw [hred, update_cart_item_found_variant_some _ _ _ _ v hle hv, if_pos hgt]
    exact ⟨rfl, hitems⟩
  · intro hle hgt
    rw [hred, update_cart_item_found_variant_some _ _ _ _ v hle hv, if_neg hgt]
    unfold update_cart_item_apply
    refine ⟨⟨_, _, _, _, rfl⟩, ?_⟩
    dsimp only
    rw [hitems]

def dbC8 : DB :=
  { variants := [{ id := 1, shoe := { id := 10, base_price := 100 },
                   stock_quantity := 10, price_adjustment := 0, is_active := true }],
    carts := [{ id := 1, owner := .user 1 }],
    items := [{ id := 1, cart_id := 1, shoe_id := 10, variant_id := 1, quantity := 2 }],
    next_cart_id := 2, next_item_id := 2 }

/-- C8 witness: updating the only line of the cart from quantity 2 to 4
(within the stock of 10) sets the quantity in place. -/
theorem C8_update_cart_item_behaviour_witness :
    ¬ (4 : Int) ≤ 0 ∧ ¬ (4 : Int) > 10
  ∧ (update_cart_item dbC8 (.user 1) 1 4).2.items
      = [{ id := 1, cart_id := 1, shoe_id := 10, variant_id := 1, quantity := 4 }] := by
  have h := C8_update_cart_item_behaviour dbC8 (.user 1) 1 4
    { id := 1, cart_id := 1, shoe_id := 10, variant_id := 1, quantity := 2 }
    { id := 1, shoe := { id := 10, base_price := 100 },
      stock_quantity := 10, price_adjustment := 0, is_active := true }
    rfl rfl
  refine ⟨by norm_num, by norm_num, ?_⟩
  rw [(h.2.2 (by norm_num) (by norm_num)).2]
  decide

lemma update_cart_item_found_error (db1 : DB) (cartId : Nat) (qty : Int)
    (item : CartItem) (hle : ¬ qty ≤ 0) (hv : db1.getVariant item.variant_id = none) :
    update_cart_item_found db1 cartId qty item = (.error, db1) := by
  unfold update_cart_item_found
  rw [if_neg hle, hv]

lemma update_cart_item_found_remove (db1 : DB) (cartId : Nat) (qty : Int)
    (item : CartItem) (hle : qty ≤ 0) :
    update_cart_item_found db1 cartId qty item = update_cart_item_delete db1 cartId item := by
  unfold update_cart_item_found
  rw [if_pos hle]

lemma update_cart_item_found_carts (db1 : DB) (cartId : Nat) (qty : Int) (item : CartItem) :
    (update_cart_item_found db1 cartId qty item).2.carts = db1.carts := by
  by_cases hle : qty ≤ 0
  · rw [update_cart_item_found_remove db1 cartId qty item hle]
    unfold update_cart_item_delete
    rfl
  · cases hv : db1.getVariant item.variant_id with
    | none => rw [update_cart_item_found_error db1 cartId qty item hle hv]
    | some v =>
      rw [update_cart_item_found_variant_some db1 cartId qty item v hle hv]
      by_cases hgt : qty > v.stock_quantity
      · rw [if_pos hgt]
      · rw [if_neg hgt]
        unfold update_cart_item_apply
        rfl

lemma update_cart_item_found_items_mem (db1 : DB) (cartId : Nat) (qty : Int)
    (item : CartItem) (it : CartItem) (hit : it ∈ db1.items) (hne : it.id ≠ item.id) :
    it ∈ (update_cart_item_found db1 cartId qty item).2.items := by
  by_cases hle : qty ≤ 0
  · rw [update_cart_item_found_remove db1 cartId qty item hle]
    unfold update_cart_item_delete
    exact List.mem_filter.mpr ⟨hit, by simpa using hne⟩
  · cases hv : db1.getVariant item.variant_id with
    | none =>
      rw [update_cart_item_found_error db1 cartId qty item hle hv]
      exact hit
    | some v =>
      rw [update_cart_item_found_variant_some db1 cartId qty item v hle hv]
      by_cases hgt : qty > v.stock_quantity
      · rw [if_pos hgt]
        exact hit
      · rw [if_neg hgt]
        unfold update_cart_item_apply
        exact List.mem_map.mpr ⟨it, hit, by rw [if_neg hne]⟩

lemma remove_cart_item_found_carts (db1 : DB) (cartId : Nat) (item : CartItem) :
    (remove_cart_item_found db1 cartId item).2.carts = db1.carts := rfl

lemma remove_cart_item_found_items_mem (db1 : DB) (cartId : Nat)
    (item : CartItem) (it : CartItem) (hit : it ∈ db1.items) (hne : it.id ≠ item.id) :
    it ∈ (remove_cart_item_found db1 cartId item).2.items :=
  List.mem_filter.mpr ⟨hit, by simpa using hne⟩

lemma distinct_ids_of_mem (items : List CartItem)
    (hids : items.Pairwise (fun a b => a.id ≠ b.id))
    (a b : CartItem) (ha : a ∈ items) (hb : b ∈ items) (hne : a ≠ b) : a.id ≠ b.id :=
  List.Pairwise.forall (fun _ _ h => h.symm) hids ha hb hne

/-- C10: update_cart_item and remove_cart_item only ever mutate lines of
the cart resolved for the requesting owner: every line of any other cart
survives both operations unchanged, every pre-existing cart row survives,
and when the requested line id belongs only to other owners carts both
operations answer with an error and the item table is left exactly as it
was (ids are assumed pairwise distinct, the primary-key property). -/
theorem C10_update_remove_frame (db : DB) (owner : Owner) (itemId : Nat) (qty : Int)
    (hids : db.items.Pairwise (fun a b => a.id ≠ b.id)) :
    (∀ it ∈ db.items, it.cart_id ≠ (get_or_create_cart db owner).1.id →
        it ∈ (update_cart_item db owner itemId qty).2.items
      ∧ it ∈ (remove_cart_item db owner itemId).2.items)
  ∧ (∀ c ∈ db.carts,
        c ∈ (update_cart_item db owner itemId qty).2.carts
      ∧ c ∈ (remove_cart_item db owner itemId).2.carts)
  ∧ ((∀ it ∈ db.items, it.id = itemId → it.cart_id ≠ (get_or_create_cart db owner).1.id) →
        (update_cart_item db owner itemId qty).1 = .error
      ∧ (update_cart_item db owner itemId qty).2.items = db.items
      ∧ (remove_cart_item db owner itemId).1 = .error
      ∧ (remove_cart_item db owner itemId).2.items = db.items) := by
  have hitems := get_or_create_cart_items db owner
  refine ⟨?_, ?_, ?_⟩
  · intro it hit hcart
    cases hfind : (get_or_create_cart db owner).2.items.find?
        (fun x => x.id = itemId ∧ x.cart_id = (get_or_create_cart db owner).1.id) with
    | none =>
      rw [update_cart_item_find_none db owner itemId qty hfind,
          remove_cart_item_find_none db owner itemId hfind, hitems]
      exact ⟨hit, hit⟩
    | some item =>
      have hpred := List.find?_some hfind
      simp only [decide_eq_true_eq] at hpred
      have hmem : item ∈ db.items := by
        have := List.mem_of_find?_eq_some hfind
        rwa [hitems] at this
      have hneq : it ≠ item := by
        intro he
        apply hcart
        rw [he]
        exact hpred.2
      have hidne : it.id ≠ item.id := distinct_ids_of_mem db.items hids it item hit hmem hneq
      constructor
      · rw [update_cart_item_find_some db owner itemId qty item hfind]
        exact update_cart_item_found_items_mem _ _ _ _ it (by rwa [hitems]) hidne
      · rw [remove_cart_item_find_some db owner itemId item hfind]
        exact remove_cart_item_found_items_mem _ _ _ it (by rwa [hitems]) hidne
  · intro c hc
    have hmemc := get_or_create_cart_carts_mem db owner c hc
    cases hfind : (get_or_create_cart db owner).2.items.find?
        (fun x => x.id = itemId ∧ x.cart_id = (get_or_create_cart db owner).1.id) with
    | none =>
      rw [update_cart_item_find_none db owner itemId qty hfind,
          remove_cart_item_find_none db owner itemId hfind]
      exact ⟨hmemc, hmemc⟩
    | some item =>
      constructor
      · rw [update_cart_item_find_some db owner itemId qty item hfind,
            update_cart_item_found_carts]
        exact hmemc
      · rw [remove_cart_item_find_some db owner itemId item hfind,
            remove_cart_item_found_carts]
        exact hmemc
  · intro hforeign
    have hfind : (get_or_create_cart db owner).2.items.find?
        (fun x => x.id = itemId ∧ x.cart_id = (get_or_create_cart db owner).1.id)
        = none := by
      apply List.find?_eq_none.mpr
      intro x hx
      rw [hitems] at hx
      simp only [decide_eq_true_eq]
      intro hand
      exact hforeign x hx hand.1 hand.2
    rw [update_cart_item_find_none db owner itemId qty hfind,
        remove_cart_item_find_none db owner itemId hfind]
    exact ⟨rfl, hitems, rfl, hitems⟩

def dbC10 : DB :=
  { variants := [{ id := 1, shoe := { id := 10, base_price := 100 },
                   stock_quantity := 10, price_adjustment := 0, is_active := true }],
    carts := [{ id := 1, owner := .user 1 }, { id := 2, owner := .user 2 }],
    items := [{ id := 1, cart_id := 1, shoe_id := 10, variant_id := 1, quantity := 2 }],
    next_cart_id := 3, next_item_id := 2 }

/-- C10 witness: user 2 asking to update or remove line 1, which belongs
to the cart of user 1, gets an error and the item table is untouched. -/
theorem C10_update_remove_frame_witness :
    dbC10.items.Pairwise (fun a b => a.id ≠ b.id)
  ∧ (update_cart_item dbC10 (.user 2) 1 5).1 = .error
  ∧ (update_cart_item dbC10 (.user 2) 1 5).2.items = dbC10.items
  ∧ (remove_cart_item dbC10 (.user 2) 1).1 = .error
  ∧ (remove_cart_item dbC10 (.user 2) 1).2.items = dbC10.items := by
  have h := C10_update_remove_frame dbC10 (.user 2) 1 5 (by decide)
  have hh := h.2.2 (by decide)
  exact ⟨by decide, hh.1, hh.2.1, hh.2.2.1, hh.2.2.2⟩

lemma keyUnique_filter (items : List CartItem) (p : CartItem → Bool)
    (h : KeyUnique items) : KeyUnique (items.filter p) :=
  List.Pairwise.sublist (List.filter_sublist _) h

lemma keyUnique_map (items : List CartItem) (f : CartItem → CartItem)
    (hf : ∀ it, (f it).cart_id = it.cart_id ∧ (f it).variant_id = it.variant_id)
    (h : KeyUnique items) : KeyUnique (items.map f) := by
  unfold KeyUnique at h ⊢
  rw [List.pairwise_map]
  refine h.imp ?_
  intro a b hab
  rw [(hf a).1, (hf a).2, (hf b).1, (hf b).2]
  exact hab

lemma keyUnique_append (items : List CartItem) (newIt : CartItem)
    (hnew : ∀ it ∈ items, ¬ (it.cart_id = newIt.cart_id ∧ it.variant_id = newIt.variant_id))
    (h : KeyUnique items) : KeyUnique (items ++ [newIt]) := by
  unfold KeyUnique at h ⊢
  rw [List.pairwise_append]
  refine ⟨h, List.pairwise_singleton _ _, ?_⟩
  intro a ha b hb
  simp only [List.mem_singleton] at hb
  subst hb
  exact hnew a ha

lemma add_to_cart_keyUnique (db : DB) (cartId variantId : Nat) (q : Int)
    (h : KeyUnique db.items) : KeyUnique (add_to_cart db cartId variantId q).2.items := by
  cases hv : db.getActiveVariant variantId with
  | none =>
    have hred : add_to_cart db cartId variantId q = (.notFound, db) := by
      unfold add_to_cart
      rw [hv]
    rw [hred]
    exact h
  | some v =>
    by_cases hq : v.stock_quantity < q
    · rw [add_to_cart_stock_fail db cartId variantId q v hv hq]
      exact h
    · cases hfind : db.items.find?
          (fun it => it.cart_id = cartId ∧ it.variant_id = variantId) with
      | none =>
        rw [add_to_cart_fresh db cartId variantId q v hv hq hfind]
        unfold add_to_cart_create
        dsimp only
        apply keyUnique_append
        · intro it hit
          have hni := List.find?_eq_none.mp hfind it hit
          simpa using hni
        · exact h
      | some item =>
        rw [add_to_cart_existing db cartId variantId q v item hv hq hfind]
        unfold add_to_cart_increment
        by_cases h2 : item.quantity + q > v.stock_quantity
        · rw [if_pos h2]
          exact h
        · rw [if_neg h2]
          dsimp only
          apply keyUnique_map
          · intro it
            by_cases hid : it.id = item.id <;> simp [hid]
          · exact h

lemma update_cart_item_keyUnique (db : DB) (owner : Owner) (itemId : Nat) (q : Int)
    (h : KeyUnique db.items) : KeyUnique (update_cart_item db owner itemId q).2.items := by
  have hitems := get_or_create_cart_items db owner
  cases hfind : (get_or_create_cart db owner).2.items.find?
      (fun it => it.id = itemId ∧ it.cart_id = (get_or_create_cart db owner).1.id) with
  | none =>
    rw [update_cart_item_find_none db owner itemId q hfind, hitems]
    exact h
  | some item =>
    rw [update_cart_item_find_some db owner itemId q item hfind]
    by_cases hle : q ≤ 0
    · rw [update_cart_item_found_remove _ _ _ _ hle]
      unfold update_cart_item_delete
      dsimp only
      apply keyUnique_filter
      rw [hitems]
      exact h
    · cases hv : (get_or_create_cart db owner).2.getVariant item.variant_id with
      | none =>
        rw [update_cart_item_found_error _ _ _ _ hle hv]
        dsimp only
        rw [hitems]
        exact h
      | some v =>
        rw [update_cart_item_found_variant_some _ _ _ _ v hle hv]
        by_cases hgt : q > v.stock_quantity
        · rw [if_pos hgt]
          dsimp only
          rw [hitems]
          exact h
        · rw [if_neg hgt]
          unfold update_cart_item_apply
          dsimp only
          apply keyUnique_map
          · intro it
            by_cases hid : it.id = item.id <;> simp [hid]
          · rw [hitems]
            exact h

lemma remove_cart_item_keyUnique (db : DB) (owner : Owner) (itemId : Nat)
    (h : KeyUnique db.items) : KeyUnique (remove_cart_item db owner itemId).2.items := by
  have hitems := get_or_create_cart_items db owner
  cases hfind : (get_or_create_cart db owner).2.items.find?
      (fun it => it.id = itemId ∧ it.cart_id = (get_or_create_cart db owner).1.id) with
  | none =>
    rw [remove_cart_item_find_none db owner itemId hfind, hitems]
    exact h
  | some item =>
    rw [remove_cart_item_find_some db owner itemId item hfind]
    unfold remove_cart_item_found
    dsimp only
    apply keyUnique_filter
    rw [hitems]
    exact h

lemma applyOp_keyUnique (db : DB) (op : CartOp) (h : KeyUnique db.items) :
    KeyUnique (applyOp db op).items := by
  cases op with
  | add cartId variantId q => exact add_to_cart_keyUnique db cartId variantId q h
  | update owner itemId q => exact update_cart_item_keyUnique db owner itemId q h
  | remove owner itemId => exact remove_cart_item_keyUnique db owner itemId h

lemma applyOps_keyUnique (ops : List CartOp) : ∀ (db : DB), KeyUnique db.items →
    KeyUnique (applyOps db ops).items := by
  induction ops with
  | nil => exact fun db h => h
  | cons op rest ih => exact fun db h => ih (applyOp db op) (applyOp_keyUnique db op h)

lemma add_to_cart_existing_line_shape (db : DB) (cartId variantId : Nat) (qty : Int)
    (item : CartItem)
    (hfind : db.items.find? (fun it => it.cart_id = cartId ∧ it.variant_id = variantId)
      = some item) :
    (add_to_cart db cartId variantId qty).2.items = db.items
  ∨ (add_to_cart db cartId variantId qty).2.items
      = db.items.map (fun it =>
          if it.id = item.id then { it with quantity := item.quantity + qty } else it) := by
  cases hv : db.getActiveVariant variantId with
  | none =>
    left
    have hred : add_to_cart db cartId variantId qty = (.notFound, db) := by
      unfold add_to_cart
      rw [hv]
    rw [hred]
  | some v =>
    by_cases hq : v.stock_quantity < qty
    · left
      rw [add_to_cart_stock_fail db cartId variantId qty v hv hq]
    · rw [add_to_cart_existing db cartId variantId qty v item hv hq hfind]
      unfold add_to_cart_increment
      by_cases h2 : item.quantity + qty > v.stock_quantity
      · left
        rw [if_pos h2]
      · right
        rw [if_neg h2]

/-- C2: along any sequence of add, update and remove operations the item
table keeps at most one line per (cart, variant) pair, and adding a
variant that already has a line in the cart either leaves the table
unchanged (a failed stock check) or bumps that single line quantity in
place — it never appends a duplicate line. -/
theorem C2_one_line_per_variant (db : DB) (ops : List CartOp)
    (hk : KeyUnique db.items) :
    KeyUnique (applyOps db ops).items
  ∧ (∀ (cartId variantId : Nat) (qty : Int) (item : CartItem),
      (applyOps db ops).items.find?
          (fun it => it.cart_id = cartId ∧ it.variant_id = variantId) = some item →
      (add_to_cart (applyOps db ops) cartId variantId qty).2.items
          = (applyOps db ops).items
    ∨ (add_to_cart (applyOps db ops) cartId variantId qty).2.items
        = (applyOps db ops).items.map
            (fun it => if it.id = item.id
              then { it with quantity := item.quantity + qty } else it)) :=
  ⟨applyOps_keyUnique ops db hk,
   fun cartId variantId qty item hfind =>
    add_to_cart_existing_line_shape (applyOps db ops) cartId variantId qty item hfind⟩

/-- C2 witness: two successive adds of the same variant on a concrete
database keep the key-uniqueness invariant. -/
theorem C2_one_line_per_variant_witness :
    KeyUnique dbC1.items
  ∧ KeyUnique (applyOps dbC1 [CartOp.add 1 1 2, CartOp.add 1 1 3]).items :=
  ⟨by unfold KeyUnique; decide,
   (C2_one_line_per_variant dbC1 [CartOp.add 1 1 2, CartOp.add 1 1 3]
      (by unfold KeyUnique; decide)).1⟩

/-- C7 witness: a concrete active coupon inside its window with usage
2 of 5 validates. -/
theorem C7_coupon_is_valid_iff_witness :
    Coupon.is_valid
      { is_active := true, usage_limit := some 5, used_count := 2,
        valid_from := 10, valid_to := 20 } 15 = true := by
  rw [C7_coupon_is_valid_iff]
  refine ⟨rfl, by norm_num, Or.inr ⟨5, rfl, by norm_num⟩⟩
